import Mathlib

/-!
Verification of the resource-modeling and wire-codec layer of the huelib
library (src/lib.rs, src/light.rs, src/resource/config.rs,
src/resource/sensor.rs), as a shallow embedding in Lean.

Modelling conventions:

* JSON values are modelled by `JValue`; serializing a modifier yields the
  list of (key, value) pairs the serde derive emits, in field-declaration
  order, where a field carrying `Option.none` is skipped
  (skip_serializing_if = Option.is_none in the source).
* Rust machine integers u8 and u16 are modelled as `Fin 256` and
  `Fin 65536`.  The signed delta slots (i16, i32) are modelled as `Int`;
  the casts `u8 as i16` and `u16 as i32` in the source are widening and
  therefore exact, and the i16/i32 negations in the source are applied to
  values of magnitude at most 65535, so no two's-complement wrap occurs:
  the range facts are proved where relevant.
* f32 coordinate values are modelled as `Rat`.  The only operation the
  source applies to a coordinate is negation, which on IEEE floats is an
  exact sign-bit flip, so the rational model is faithful for the
  properties proved here.
* `std::collections::HashMap` iteration order is unspecified (the hasher
  is randomly seeded per map), so a map built from a list of entries with
  pairwise distinct keys may be iterated in any permutation of those
  entries; `Config.IsHashMapIter` captures exactly that.
* `chrono::NaiveDateTime::parse_from_str` with the fixed format
  "%Y-%m-%dT%H:%M:%S" is external library code; `parseDateTime` models it
  on zero-padded inputs: four year digits, two digits per other field,
  literal separators, whole-string consumption, and Gregorian calendar
  validity (leap years included).
-/

namespace Huelib

/-- A JSON value, restricted to the shapes this layer reads or writes.
A two-element coordinate array is `pair`; an object is `obj`. -/
inductive JValue where
  | null : JValue
  | bool (b : Bool) : JValue
  | int (n : Int) : JValue
  | str (s : String) : JValue
  | pair (x y : Rat) : JValue
  | obj (fields : List (String × JValue)) : JValue

/-- A deserialization error, keeping the distinctions the claims need:
a serde missing-field error, a serde invalid-type error, and an error
produced through serde's custom-message channel (Error::custom). -/
inductive DecodeError where
  | missingField (field : String) : DecodeError
  | invalidType (expected : String) : DecodeError
  | custom (msg : String) : DecodeError
  deriving DecidableEq, Repr

/-- The message a `DecodeError` carries, used where the source wraps an
inner serde_json error with `map_err(Error::custom)`. -/
def DecodeError.message : DecodeError → String
  | .missingField f => "missing field " ++ f
  | .invalidType e => "invalid type, expected " ++ e
  | .custom m => m

/-- src/lib.rs `ModifierType`: Override / Increment / Decrement. -/
inductive ModifierType where
  | Override : ModifierType
  | Increment : ModifierType
  | Decrement : ModifierType
  deriving DecidableEq, Repr

/-- src/lib.rs `CoordinateModifierType`. -/
inductive CoordinateModifierType where
  | Override : CoordinateModifierType
  | Increment : CoordinateModifierType
  | Decrement : CoordinateModifierType
  | IncrementDecrement : CoordinateModifierType
  | DecrementIncrement : CoordinateModifierType
  deriving DecidableEq, Repr

/-- src/lib.rs `Alert` (serde rename_all = "lowercase"). -/
inductive Alert where
  | Select : Alert
  | LSelect : Alert
  | None : Alert
  deriving DecidableEq, Repr

/-- Wire token of an `Alert` variant. -/
def Alert.token : Alert → String
  | .Select => "select"
  | .LSelect => "lselect"
  | .None => "none"

/-- Decoding an `Alert` from its wire token: unknown tokens fail. -/
def Alert.parse (s : String) : Option Alert :=
  if s = "select" then some Alert.Select
  else if s = "lselect" then some Alert.LSelect
  else if s = "none" then some Alert.None
  else Option.none

/-- src/lib.rs `Effect` (serde rename_all = "lowercase"). -/
inductive Effect where
  | Colorloop : Effect
  | None : Effect
  deriving DecidableEq, Repr

/-- Wire token of an `Effect` variant. -/
def Effect.token : Effect → String
  | .Colorloop => "colorloop"
  | .None => "none"

/-- Decoding an `Effect` from its wire token: unknown tokens fail. -/
def Effect.parse (s : String) : Option Effect :=
  if s = "colorloop" then some Effect.Colorloop
  else if s = "none" then some Effect.None
  else Option.none

/-- src/lib.rs `ColorMode` (per-variant serde renames "ct", "hs", "xy"). -/
inductive ColorMode where
  | ColorTemperature : ColorMode
  | HueAndSaturation : ColorMode
  | ColorSpaceCoordinates : ColorMode
  deriving DecidableEq, Repr

/-- Wire token of a `ColorMode` variant. -/
def ColorMode.token : ColorMode → String
  | .ColorTemperature => "ct"
  | .HueAndSaturation => "hs"
  | .ColorSpaceCoordinates => "xy"

/-- Decoding a `ColorMode` from its wire token: unknown tokens fail. -/
def ColorMode.parse (s : String) : Option ColorMode :=
  if s = "ct" then some ColorMode.ColorTemperature
  else if s = "hs" then some ColorMode.HueAndSaturation
  else if s = "xy" then some ColorMode.ColorSpaceCoordinates
  else Option.none

/-- src/lib.rs `ActionRequestType` (serde rename_all = "UPPERCASE"). -/
inductive ActionRequestType where
  | Put : ActionRequestType
  | Post : ActionRequestType
  | Delete : ActionRequestType
  deriving DecidableEq, Repr

/-- Wire token of an `ActionRequestType` variant. -/
def ActionRequestType.token : ActionRequestType → String
  | .Put => "PUT"
  | .Post => "POST"
  | .Delete => "DELETE"

/-- Decoding an `ActionRequestType` from its wire token. -/
def ActionRequestType.parse (s : String) : Option ActionRequestType :=
  if s = "PUT" then some ActionRequestType.Put
  else if s = "POST" then some ActionRequestType.Post
  else if s = "DELETE" then some ActionRequestType.Delete
  else Option.none

end Huelib

namespace Huelib.Light

/-- src/light.rs `SoftwareUpdateState` (serde rename_all = "lowercase"). -/
inductive SoftwareUpdateState where
  | NoUpdates : SoftwareUpdateState
  | NotUpdatable : SoftwareUpdateState
  deriving DecidableEq, Repr

/-- Wire token of a light `SoftwareUpdateState` variant. -/
def SoftwareUpdateState.token : SoftwareUpdateState → String
  | .NoUpdates => "noupdates"
  | .NotUpdatable => "notupdatable"

/-- Decoding a light `SoftwareUpdateState` from its wire token. -/
def SoftwareUpdateState.parse (s : String) : Option SoftwareUpdateState :=
  if s = "noupdates" then some SoftwareUpdateState.NoUpdates
  else if s = "notupdatable" then some SoftwareUpdateState.NotUpdatable
  else Option.none

end Huelib.Light

namespace Huelib.Config

/-- src/resource/config.rs `SoftwareUpdateState`
(serde rename_all = "lowercase"; the first variant is spelled "Unkown"
in the source, so its token is "unkown"). -/
inductive SoftwareUpdateState where
  | Unkown : SoftwareUpdateState
  | NoUpdates : SoftwareUpdateState
  | Transferring : SoftwareUpdateState
  | AnyReadyToInstall : SoftwareUpdateState
  | AllReadyToInstall : SoftwareUpdateState
  | Installing : SoftwareUpdateState
  deriving DecidableEq, Repr

/-- Wire token of a bridge `SoftwareUpdateState` variant. -/
def SoftwareUpdateState.token : SoftwareUpdateState → String
  | .Unkown => "unkown"
  | .NoUpdates => "noupdates"
  | .Transferring => "transferring"
  | .AnyReadyToInstall => "anyreadytoinstall"
  | .AllReadyToInstall => "allreadytoinstall"
  | .Installing => "installing"

/-- Decoding a bridge `SoftwareUpdateState` from its wire token. -/
def SoftwareUpdateState.parse (s : String) : Option SoftwareUpdateState :=
  if s = "unkown" then some SoftwareUpdateState.Unkown
  else if s = "noupdates" then some SoftwareUpdateState.NoUpdates
  else if s = "transferring" then some SoftwareUpdateState.Transferring
  else if s = "anyreadytoinstall" then some SoftwareUpdateState.AnyReadyToInstall
  else if s = "allreadytoinstall" then some SoftwareUpdateState.AllReadyToInstall
  else if s = "installing" then some SoftwareUpdateState.Installing
  else Option.none

/-- src/resource/config.rs `ServiceStatus` (serde rename_all = "lowercase"). -/
inductive ServiceStatus where
  | Connected : ServiceStatus
  | Disconnected : ServiceStatus
  deriving DecidableEq, Repr

/-- Wire token of a `ServiceStatus` variant. -/
def ServiceStatus.token : ServiceStatus → String
  | .Connected => "connected"
  | .Disconnected => "disconnected"

/-- Decoding a `ServiceStatus` from its wire token. -/
def ServiceStatus.parse (s : String) : Option ServiceStatus :=
  if s = "connected" then some ServiceStatus.Connected
  else if s = "disconnected" then some ServiceStatus.Disconnected
  else Option.none

/-- src/resource/config.rs `BackupStatus` (per-variant serde renames). -/
inductive BackupStatus where
  | Idle : BackupStatus
  | StartMigration : BackupStatus
  | FilereadyDisabled : BackupStatus
  | PrepareRestore : BackupStatus
  | Restoring : BackupStatus
  deriving DecidableEq, Repr

/-- Wire token of a `BackupStatus` variant. -/
def BackupStatus.token : BackupStatus → String
  | .Idle => "idle"
  | .StartMigration => "startmigration"
  | .FilereadyDisabled => "fileready_disabled"
  | .PrepareRestore => "prepare_restore"
  | .Restoring => "restoring"

/-- Decoding a `BackupStatus` from its wire token. -/
def BackupStatus.parse (s : String) : Option BackupStatus :=
  if s = "idle" then some BackupStatus.Idle
  else if s = "startmigration" then some BackupStatus.StartMigration
  else if s = "fileready_disabled" then some BackupStatus.FilereadyDisabled
  else if s = "prepare_restore" then some BackupStatus.PrepareRestore
  else if s = "restoring" then some BackupStatus.Restoring
  else Option.none

/-- src/resource/config.rs `BackupError` (serde_repr, u8 codes 0, 1, 2). -/
inductive BackupError where
  | None : BackupError
  | ExportFailed : BackupError
  | ImportFailed : BackupError
  deriving DecidableEq, Repr

/-- Wire integer code of a `BackupError` variant. -/
def BackupError.token : BackupError → Nat
  | .None => 0
  | .ExportFailed => 1
  | .ImportFailed => 2

/-- Decoding a `BackupError` from its integer code: unknown codes fail. -/
def BackupError.parse (n : Nat) : Option BackupError :=
  if n = 0 then some BackupError.None
  else if n = 1 then some BackupError.ExportFailed
  else if n = 2 then some BackupError.ImportFailed
  else Option.none

end Huelib.Config

namespace Huelib

/-- C5: token round trip for every enumerated wire type: decoding a
documented token succeeds, re-encoding the decoded variant gives back the
token character for character (case included), and any token outside the
documented closed set fails to decode.  Each conjunct states, for one
enum, that `parse s = some a` holds exactly when `token a = s`. -/
theorem enum_token_roundtrip_closed :
    (∀ (s : String) (a : Alert), Alert.parse s = some a ↔ Alert.token a = s)
    ∧ (∀ (s : String) (e : Effect), Effect.parse s = some e ↔ Effect.token e = s)
    ∧ (∀ (s : String) (c : ColorMode), ColorMode.parse s = some c ↔ ColorMode.token c = s)
    ∧ (∀ (s : String) (r : ActionRequestType),
        ActionRequestType.parse s = some r ↔ ActionRequestType.token r = s)
    ∧ (∀ (s : String) (u : Light.SoftwareUpdateState),
        Light.SoftwareUpdateState.parse s = some u ↔ Light.SoftwareUpdateState.token u = s)
    ∧ (∀ (s : String) (u : Config.SoftwareUpdateState),
        Config.SoftwareUpdateState.parse s = some u ↔ Config.SoftwareUpdateState.token u = s)
    ∧ (∀ (s : String) (v : Config.ServiceStatus),
        Config.ServiceStatus.parse s = some v ↔ Config.ServiceStatus.token v = s)
    ∧ (∀ (s : String) (b : Config.BackupStatus),
        Config.BackupStatus.parse s = some b ↔ Config.BackupStatus.token b = s)
    ∧ (∀ (n : Nat) (e : Config.BackupError),
        Config.BackupError.parse n = some e ↔ Config.BackupError.token e = n) := by
  refine ⟨?_, ?_, ?_, ?_, ?_, ?_, ?_, ?_, ?_⟩
  · intro s a
    cases a <;> simp only [Alert.parse, Alert.token] <;> split_ifs <;> simp_all [eq_comm]
  · intro s e
    cases e <;> simp only [Effect.parse, Effect.token] <;> split_ifs <;> simp_all [eq_comm]
  · intro s c
    cases c <;> simp only [ColorMode.parse, ColorMode.token] <;> split_ifs <;> simp_all [eq_comm]
  · intro s r
    cases r <;> simp only [ActionRequestType.parse, ActionRequestType.token] <;>
      split_ifs <;> simp_all [eq_comm]
  · intro s u
    cases u <;>
      simp only [Light.SoftwareUpdateState.parse, Light.SoftwareUpdateState.token] <;>
      split_ifs <;> simp_all [eq_comm]
  · intro s u
    cases u <;>
      simp only [Config.SoftwareUpdateState.parse, Config.SoftwareUpdateState.token] <;>
      split_ifs <;> simp_all [eq_comm]
  · intro s v
    cases v <;> simp only [Config.ServiceStatus.parse, Config.ServiceStatus.token] <;>
      split_ifs <;> simp_all [eq_comm]
  · intro s b
    cases b <;> simp only [Config.BackupStatus.parse, Config.BackupStatus.token] <;>
      split_ifs <;> simp_all [eq_comm]
  · intro n e
    cases e <;> simp only [Config.BackupError.parse, Config.BackupError.token] <;>
      split_ifs <;> simp_all [eq_comm]

end Huelib

namespace Huelib

/-- A parsed calendar date-time (chrono::NaiveDateTime payload). -/
structure DateTime where
  year : Nat
  month : Nat
  day : Nat
  hour : Nat
  minute : Nat
  second : Nat
  deriving DecidableEq, Repr

/-- Gregorian leap-year test. -/
def isLeapYear (y : Nat) : Bool :=
  (y % 4 = 0 && y % 100 ≠ 0) || y % 400 = 0

/-- Days in a month of the Gregorian calendar. -/
def daysInMonth (y m : Nat) : Nat :=
  if m = 2 then (if isLeapYear y then 29 else 28)
  else if m = 4 ∨ m = 6 ∨ m = 9 ∨ m = 11 then 30
  else 31

/-- The value of a decimal digit character, failing on non-digits. -/
def digitVal (c : Char) : Option Nat :=
  if c.isDigit then some (c.toNat - 48) else Option.none

/-- Two decimal digits, returning the value and the remaining input. -/
def parse2 : List Char → Option (Nat × List Char)
  | c1 :: c2 :: rest =>
    match digitVal c1, digitVal c2 with
    | some d1, some d2 => some (10 * d1 + d2, rest)
    | _, _ => Option.none
  | _ => Option.none

/-- Four decimal digits, returning the value and the remaining input. -/
def parse4 : List Char → Option (Nat × List Char)
  | c1 :: c2 :: c3 :: c4 :: rest =>
    match digitVal c1, digitVal c2, digitVal c3, digitVal c4 with
    | some d1, some d2, some d3, some d4 =>
      some (1000 * d1 + 100 * d2 + 10 * d3 + d4, rest)
    | _, _, _, _ => Option.none
  | _ => Option.none

/-- One expected literal character. -/
def expectChar (c : Char) : List Char → Option (List Char)
  | c1 :: rest => if c1 = c then some rest else Option.none
  | [] => Option.none

/-- chrono::NaiveDateTime::parse_from_str with the fixed format
"%Y-%m-%dT%H:%M:%S" (external library code), modelled on zero-padded
inputs: four year digits, two digits per other field, the literal
separators of the format, the whole input consumed, and the field values
forming a valid Gregorian calendar date and a valid time of day. -/
def parseDateTime (s : String) : Option DateTime := do
  let (y, r1) ← parse4 s.data
  let r2 ← expectChar '-' r1
  let (mo, r3) ← parse2 r2
  let r4 ← expectChar '-' r3
  let (d, r5) ← parse2 r4
  let r6 ← expectChar 'T' r5
  let (h, r7) ← parse2 r6
  let r8 ← expectChar ':' r7
  let (mi, r9) ← parse2 r8
  let r10 ← expectChar ':' r9
  let (sec, r11) ← parse2 r10
  if r11 = [] ∧ 1 ≤ mo ∧ mo ≤ 12 ∧ 1 ≤ d ∧ d ≤ daysInMonth y mo
      ∧ h ≤ 23 ∧ mi ≤ 59 ∧ sec ≤ 59 then
    some ⟨y, mo, d, h, mi, sec⟩
  else
    Option.none

end Huelib

namespace Huelib.Light

/-- src/light.rs `LastScan`: status of the last scan for new lights. -/
inductive LastScan where
  | DateTime (d : Huelib.DateTime) : LastScan
  | Active : LastScan
  | None : LastScan
  deriving DecidableEq, Repr

/-- src/light.rs `LastScan::deserialize`: the input must be a string;
"active" and "none" are matched exactly, any other string is parsed with
the fixed date-time format, a parse failure being reported through
serde's custom-error channel (D::Error::custom). -/
def LastScan.decode (s : String) : Except DecodeError LastScan :=
  if s = "active" then Except.ok LastScan.Active
  else if s = "none" then Except.ok LastScan.None
  else
    match parseDateTime s with
    | some d => Except.ok (LastScan.DateTime d)
    | Option.none => Except.error (DecodeError.custom s)

/-- src/light.rs `ScanLight`: a light returned from a scan. -/
structure ScanLight where
  id : String
  name : String
  deriving DecidableEq, Repr

/-- src/light.rs `Scan`: result of a scan for new lights. -/
structure Scan where
  last_scan : LastScan
  lights : List ScanLight
  deriving DecidableEq, Repr

/-- serde's `String` deserializer on a JSON value: only a JSON string
succeeds; any other shape is an invalid-type error.  This is what
`map.next_value()?` runs for the `name` field of `ScanLight`, whose
declared type is `String`. -/
def decodeString : JValue → Except DecodeError String
  | .str s => Except.ok s
  | _ => Except.error (DecodeError.invalidType "a string")

/-- serde_json::from_value::<Option<LastScan>> on the value stored under
the "lastscan" key: JSON null gives None, a string runs
`LastScan::deserialize`, any other shape is an invalid-type error. -/
def decodeOptionLastScan : JValue → Except DecodeError (Option LastScan)
  | .null => Except.ok Option.none
  | .str s => (LastScan.decode s).map some
  | _ => Except.error (DecodeError.invalidType "a string")

/-- The loop of `ScanVisitor::visit_map` (src/light.rs): a single pass
over the key/value pairs in input order; the exact key "lastscan" routes
its value to the last-scan status (wrapping any inner error with
Error::custom, as `map_err(V::Error::custom)` does), every other key `v`
builds `ScanLight { id: v, name: map.next_value()? }` and appends it;
after the loop, a never-assigned last-scan status is a missing-field
error. -/
def scanLoop : List (String × JValue) → List ScanLight → Option LastScan →
    Except DecodeError Scan
  | [], lights, ls =>
    match ls with
    | some l => Except.ok ⟨l, lights⟩
    | Option.none => Except.error (DecodeError.missingField "lastscan")
  | (k, v) :: rest, lights, ls =>
    if k = "lastscan" then
      match decodeOptionLastScan v with
      | Except.ok l => scanLoop rest lights l
      | Except.error e => Except.error (DecodeError.custom e.message)
    else
      match decodeString v with
      | Except.ok n => scanLoop rest (lights ++ [⟨k, n⟩]) ls
      | Except.error e => Except.error e

/-- src/light.rs `Scan::deserialize`: visit the input object's entries in
document order with `scanLoop`, starting from no lights and no last-scan
status. -/
def Scan.decode (entries : List (String × JValue)) : Except DecodeError Scan :=
  scanLoop entries [] Option.none

end Huelib.Light

namespace Huelib

/-- C6: decoding the `LastScan` field from a JSON string: the exact
literal "none" yields the absent status, the exact literal "active"
yields Active, and any other string is parsed against the fixed format
%Y-%m-%dT%H:%M:%S, yielding a DateTime on success and a hard decode
error — never absence — on a non-conforming string.  The concrete
conjuncts exercise a leap-day success, an invalid calendar date and an
arbitrary malformed string. -/
theorem lastscan_sentinel_dispatch :
    (Light.LastScan.decode "none" = Except.ok Light.LastScan.None)
    ∧ (Light.LastScan.decode "active" = Except.ok Light.LastScan.Active)
    ∧ (∀ (s : String) (d : DateTime), s ≠ "active" → s ≠ "none" →
        parseDateTime s = some d →
        Light.LastScan.decode s = Except.ok (Light.LastScan.DateTime d))
    ∧ (∀ s : String, s ≠ "active" → s ≠ "none" → parseDateTime s = Option.none →
        Light.LastScan.decode s = Except.error (DecodeError.custom s))
    ∧ (Light.LastScan.decode "2020-02-29T23:59:59"
        = Except.ok (Light.LastScan.DateTime ⟨2020, 2, 29, 23, 59, 59⟩))
    ∧ (Light.LastScan.decode "2019-02-29T00:00:00"
        = Except.error (DecodeError.custom "2019-02-29T00:00:00"))
    ∧ (Light.LastScan.decode "garbage" = Except.error (DecodeError.custom "garbage")) := by
  refine ⟨rfl, rfl, ?_, ?_, rfl, rfl, rfl⟩
  · intro s d ha hn hp
    simp only [Light.LastScan.decode, if_neg ha, if_neg hn, hp]
  · intro s ha hn hp
    simp only [Light.LastScan.decode, if_neg ha, if_neg hn, hp]

/-- C1: the documented scan-result scenario does NOT decode.  On the
input object with "lastscan": "active" and "3": an object holding a
single name field, the deserializer reads the dynamic key's value with
`map.next_value()?` at type `String` (the declared type of
`ScanLight.name`), so the object value {"name": "Hue bulb"} raises a
serde invalid-type error instead of producing the (id, name) record the
claim describes. -/
theorem scan_decode_scenario_fails :
    Light.Scan.decode
        [("lastscan", JValue.str "active"),
         ("3", JValue.obj [("name", JValue.str "Hue bulb")])]
      = Except.error (DecodeError.invalidType "a string") := rfl

/-- C9: behavior of the scan decoder when the reserved key "lastscan"
never appears.  With the spec's scan shape (dynamic values are objects
holding a name field) the decode fails, but with an invalid-type error
raised before the missing-field check; the missing-field error is
reached exactly when every dynamic value itself decodes as a plain
string, including for zero dynamic entries. -/
theorem scan_missing_lastscan_behavior :
    (Light.Scan.decode [("3", JValue.obj [("name", JValue.str "Hue bulb")])]
      = Except.error (DecodeError.invalidType "a string"))
    ∧ (Light.Scan.decode [] = Except.error (DecodeError.missingField "lastscan"))
    ∧ (Light.Scan.decode [("3", JValue.str "Hue bulb"), ("4", JValue.str "Lamp")]
      = Except.error (DecodeError.missingField "lastscan")) :=
  ⟨rfl, rfl, rfl⟩

end Huelib

namespace Huelib.Config

/-- src/resource/config.rs `User`: a whitelisted user of the bridge.
The `id` field is serde-skipped on the wire (its default is the empty
string) and is attached afterwards from the enclosing map key. -/
structure User where
  id : String
  name : String
  last_use_date : DateTime
  create_date : DateTime
  deriving DecidableEq, Repr

/-- src/resource/config.rs `User::with_id`: overwrite the identifier. -/
def User.with_id (u : User) (id : String) : User :=
  { u with id := id }

/-- src/resource/config.rs `deserialize_whitelist`, after the input
object has been read into a `HashMap<String, User>`: iterate the map and
push `user.with_id(id)` for every entry, in the map's iteration order.
The argument is the sequence of entries in that iteration order. -/
def deserialize_whitelist (hm : List (String × User)) : List User :=
  hm.map fun p => p.2.with_id p.1

/-- `hm` is a possible iteration sequence of the
`std::collections::HashMap` built from the input object's entries:
std's HashMap is randomly seeded, so its iteration order is unspecified
and any permutation of the (distinct-keyed) entries can be observed. -/
def IsHashMapIter (hm entries : List (String × User)) : Prop :=
  List.Perm hm entries

/-- A concrete user payload used in the C2 instances (wire payloads never
carry `id`, so it defaults to the empty string). -/
def userA : User :=
  ⟨"", "user a", ⟨2020, 1, 1, 0, 0, 0⟩, ⟨2019, 1, 1, 0, 0, 0⟩⟩

/-- A second concrete user payload used in the C2 instances. -/
def userB : User :=
  ⟨"", "user b", ⟨2020, 2, 2, 0, 0, 0⟩, ⟨2019, 2, 2, 0, 0, 0⟩⟩

end Huelib.Config

namespace Huelib

/-- C2 (counterexample): for the two-entry input object
{"1": userA, "2": userB}, the reversed sequence is a legal HashMap
iteration order, and on it the whitelist deserializer returns the users
in the opposite of the order the keys are encountered in the payload, so
the claimed encounter-order guarantee is false. -/
theorem whitelist_order_counterexample :
    Config.IsHashMapIter [("2", Config.userB), ("1", Config.userA)]
        [("1", Config.userA), ("2", Config.userB)]
    ∧ Config.deserialize_whitelist [("2", Config.userB), ("1", Config.userA)]
      ≠ [Config.userA.with_id "1", Config.userB.with_id "2"] := by
  constructor
  · exact List.Perm.swap ("1", Config.userA) ("2", Config.userB) []
  · decide

/-- C2 (amended): for every input-object entry sequence and every
iteration order its HashMap may produce, the whitelist deserializer
returns one user per entry with the `id` field set from that entry's
key — as a permutation of the entries, in an unspecified order. -/
theorem whitelist_ids_from_keys_perm
    (entries hm : List (String × Config.User))
    (h : Config.IsHashMapIter hm entries) :
    List.Perm (Config.deserialize_whitelist hm)
      (entries.map fun p => p.2.with_id p.1) :=
  List.Perm.map _ h

/-- Witness for the amended C2 theorem at the concrete two-entry input. -/
theorem whitelist_ids_from_keys_perm_witness :
    List.Perm
      (Config.deserialize_whitelist [("2", Config.userB), ("1", Config.userA)])
      ([("1", Config.userA), ("2", Config.userB)].map fun p => p.2.with_id p.1) :=
  whitelist_ids_from_keys_perm _ _
    (List.Perm.swap ("1", Config.userA) ("2", Config.userB) [])

end Huelib

namespace Huelib

/-- One serialized field of a modifier: nothing when the slot is unset
(serde skip_serializing_if = Option::is_none), the renamed key and the
encoded value when it is set. -/
def optField {α : Type} (k : String) (f : α → JValue) : Option α → List (String × JValue)
  | Option.none => []
  | some v => [(k, f v)]

end Huelib

namespace Huelib.Light

/-- src/light.rs `AttributeModifier` (all fields optional, none set by
Default). -/
structure AttributeModifier where
  name : Option String
  deriving DecidableEq, Repr

/-- `Modifier::new` = Default::default(): no field set. -/
def AttributeModifier.new : AttributeModifier :=
  ⟨Option.none⟩

/-- `Modifier::is_empty`: structural equality with a fresh instance. -/
def AttributeModifier.is_empty (m : AttributeModifier) : Bool :=
  decide (m = AttributeModifier.new)

/-- src/light.rs `AttributeModifier::name` (the setter). -/
def AttributeModifier.set_name (m : AttributeModifier) (value : String) : AttributeModifier :=
  { m with name := some value }

/-- Serialization of an `AttributeModifier`. -/
def AttributeModifier.serialize (m : AttributeModifier) : List (String × JValue) :=
  optField "name" JValue.str m.name

/-- One setter call on an `AttributeModifier`. -/
inductive AttributeModifier.Call where
  | name (value : String) : AttributeModifier.Call
  deriving DecidableEq, Repr

/-- Run one setter call. -/
def AttributeModifier.Call.apply (m : AttributeModifier) : AttributeModifier.Call → AttributeModifier
  | .name v => m.set_name v

/-- The one wire field a setter call populates. -/
def AttributeModifier.Call.wireField : AttributeModifier.Call → String × JValue
  | .name v => ("name", JValue.str v)

/-- Clearing the only slot of an `AttributeModifier`. -/
def AttributeModifier.erase (m : AttributeModifier) : AttributeModifier :=
  { m with name := Option.none }

/-- src/light.rs `StateModifier`: one optional slot per wire field, in
declaration order.  u8/u16 slots are Fin 256 / Fin 65536; the signed
delta slots (i16 for bri_inc and sat_inc, i32 for hue_inc and ct_inc)
are Int; f32 coordinates are Rat. -/
structure StateModifier where
  «on» : Option Bool
  brightness : Option (Fin 256)
  hue : Option (Fin 65536)
  saturation : Option (Fin 256)
  color_space_coordinates : Option (Rat × Rat)
  color_temperature : Option (Fin 65536)
  alert : Option Alert
  effect : Option Effect
  transition_time : Option (Fin 65536)
  brightness_increment : Option Int
  hue_increment : Option Int
  saturation_increment : Option Int
  color_space_coordinates_increment : Option (Rat × Rat)
  color_temperature_increment : Option Int
  deriving DecidableEq, Repr

/-- `Modifier::new` = Default::default(): no slot set. -/
def StateModifier.new : StateModifier :=
  ⟨Option.none, Option.none, Option.none, Option.none, Option.none, Option.none,
   Option.none, Option.none, Option.none, Option.none, Option.none, Option.none,
   Option.none, Option.none⟩

/-- `Modifier::is_empty`: structural equality with a fresh instance.
(Against the all-unset fresh value, Rust's derived f32 PartialEq agrees
with structural equality: every comparison that could involve float
semantics compares Some against None.) -/
def StateModifier.is_empty (m : StateModifier) : Bool :=
  decide (m = StateModifier.new)

/-- src/light.rs `StateModifier::on`. -/
def StateModifier.set_on (m : StateModifier) (value : Bool) : StateModifier :=
  { m with «on» := some value }

/-- src/light.rs `StateModifier::brightness`: Override fills `bri`;
Increment/Decrement fill `bri_inc` with the sign-adjusted value.  The
source cast `value as i16` of a u8 is widening, hence exact, and the
i16 negation of a value below 256 cannot wrap. -/
def StateModifier.set_brightness (m : StateModifier) (t : ModifierType) (value : Fin 256) :
    StateModifier :=
  match t with
  | .Override => { m with brightness := some value }
  | .Increment => { m with brightness_increment := some (value.val : Int) }
  | .Decrement => { m with brightness_increment := some (-(value.val : Int)) }

/-- src/light.rs `StateModifier::hue` (u16 widened exactly to i32). -/
def StateModifier.set_hue (m : StateModifier) (t : ModifierType) (value : Fin 65536) :
    StateModifier :=
  match t with
  | .Override => { m with hue := some value }
  | .Increment => { m with hue_increment := some (value.val : Int) }
  | .Decrement => { m with hue_increment := some (-(value.val : Int)) }

/-- src/light.rs `StateModifier::saturation` (u8 widened exactly to i16). -/
def StateModifier.set_saturation (m : StateModifier) (t : ModifierType) (value : Fin 256) :
    StateModifier :=
  match t with
  | .Override => { m with saturation := some value }
  | .Increment => { m with saturation_increment := some (value.val : Int) }
  | .Decrement => { m with saturation_increment := some (-(value.val : Int)) }

/-- src/light.rs `StateModifier::color_space_coordinates`: Override
fills `xy`; the four delta variants fill `xy_inc` with the per-axis
sign-adjusted pair. -/
def StateModifier.set_color_space_coordinates (m : StateModifier)
    (t : CoordinateModifierType) (value : Rat × Rat) : StateModifier :=
  match t with
  | .Override => { m with color_space_coordinates := some value }
  | .Increment => { m with color_space_coordinates_increment := some value }
  | .Decrement => { m with color_space_coordinates_increment := some (-value.1, -value.2) }
  | .IncrementDecrement => { m with color_space_coordinates_increment := some (value.1, -value.2) }
  | .DecrementIncrement => { m with color_space_coordinates_increment := some (-value.1, value.2) }

/-- src/light.rs `StateModifier::color_temperature` (u16 widened exactly
to i32). -/
def StateModifier.set_color_temperature (m : StateModifier) (t : ModifierType)
    (value : Fin 65536) : StateModifier :=
  match t with
  | .Override => { m with color_temperature := some value }
  | .Increment => { m with color_temperature_increment := some (value.val : Int) }
  | .Decrement => { m with color_temperature_increment := some (-(value.val : Int)) }

/-- src/light.rs `StateModifier::alert`. -/
def StateModifier.set_alert (m : StateModifier) (value : Alert) : StateModifier :=
  { m with alert := some value }

/-- src/light.rs `StateModifier::effect`. -/
def StateModifier.set_effect (m : StateModifier) (value : Effect) : StateModifier :=
  { m with effect := some value }

/-- src/light.rs `StateModifier::transition_time`. -/
def StateModifier.set_transition_time (m : StateModifier) (value : Fin 65536) : StateModifier :=
  { m with transition_time := some value }

/-- Serialization of a `StateModifier`: the set slots, in field order,
under their serde rename keys. -/
def StateModifier.serialize (m : StateModifier) : List (String × JValue) :=
  optField "on" JValue.bool m.«on»
    ++ optField "bri" (fun v => JValue.int v.val) m.brightness
    ++ optField "hue" (fun v => JValue.int v.val) m.hue
    ++ optField "sat" (fun v => JValue.int v.val) m.saturation
    ++ optField "xy" (fun p => JValue.pair p.1 p.2) m.color_space_coordinates
    ++ optField "ct" (fun v => JValue.int v.val) m.color_temperature
    ++ optField "alert" (fun a => JValue.str (Alert.token a)) m.alert
    ++ optField "effect" (fun e => JValue.str (Effect.token e)) m.effect
    ++ optField "transitiontime" (fun v => JValue.int v.val) m.transition_time
    ++ optField "bri_inc" JValue.int m.brightness_increment
    ++ optField "hue_inc" JValue.int m.hue_increment
    ++ optField "sat_inc" JValue.int m.saturation_increment
    ++ optField "xy_inc" (fun p => JValue.pair p.1 p.2) m.color_space_coordinates_increment
    ++ optField "ct_inc" JValue.int m.color_temperature_increment

end Huelib.Light

namespace Huelib.Light

/-- The fourteen wire slots of a `StateModifier`, named by wire key. -/
inductive StateModifier.Slot where
  | «on» : StateModifier.Slot
  | bri : StateModifier.Slot
  | hue : StateModifier.Slot
  | sat : StateModifier.Slot
  | xy : StateModifier.Slot
  | ct : StateModifier.Slot
  | alert : StateModifier.Slot
  | effect : StateModifier.Slot
  | transitiontime : StateModifier.Slot
  | bri_inc : StateModifier.Slot
  | hue_inc : StateModifier.Slot
  | sat_inc : StateModifier.Slot
  | xy_inc : StateModifier.Slot
  | ct_inc : StateModifier.Slot
  deriving DecidableEq, Repr

/-- The value type stored in a slot. -/
def StateModifier.Slot.ty : StateModifier.Slot → Type
  | .«on» => Bool
  | .bri => Fin 256
  | .hue => Fin 65536
  | .sat => Fin 256
  | .xy => Rat × Rat
  | .ct => Fin 65536
  | .alert => Alert
  | .effect => Effect
  | .transitiontime => Fin 65536
  | .bri_inc => Int
  | .hue_inc => Int
  | .sat_inc => Int
  | .xy_inc => Rat × Rat
  | .ct_inc => Int

/-- Writing one slot of a `StateModifier` (or clearing it, with none). -/
def StateModifier.setSlot (m : StateModifier) :
    (s : StateModifier.Slot) → Option s.ty → StateModifier
  | .«on», v => { m with «on» := v }
  | .bri, v => { m with brightness := v }
  | .hue, v => { m with hue := v }
  | .sat, v => { m with saturation := v }
  | .xy, v => { m with color_space_coordinates := v }
  | .ct, v => { m with color_temperature := v }
  | .alert, v => { m with alert := v }
  | .effect, v => { m with effect := v }
  | .transitiontime, v => { m with transition_time := v }
  | .bri_inc, v => { m with brightness_increment := v }
  | .hue_inc, v => { m with hue_increment := v }
  | .sat_inc, v => { m with saturation_increment := v }
  | .xy_inc, v => { m with color_space_coordinates_increment := v }
  | .ct_inc, v => { m with color_temperature_increment := v }

/-- Clearing one slot of a `StateModifier`. -/
def StateModifier.eraseSlot (m : StateModifier) (s : StateModifier.Slot) : StateModifier :=
  m.setSlot s Option.none

/-- One setter call on a `StateModifier`, with its arguments. -/
inductive StateModifier.Call where
  | «on» (value : Bool) : StateModifier.Call
  | brightness (t : ModifierType) (value : Fin 256) : StateModifier.Call
  | hue (t : ModifierType) (value : Fin 65536) : StateModifier.Call
  | saturation (t : ModifierType) (value : Fin 256) : StateModifier.Call
  | color_space_coordinates (t : CoordinateModifierType) (value : Rat × Rat) : StateModifier.Call
  | color_temperature (t : ModifierType) (value : Fin 65536) : StateModifier.Call
  | alert (value : Alert) : StateModifier.Call
  | effect (value : Effect) : StateModifier.Call
  | transition_time (value : Fin 65536) : StateModifier.Call
  deriving DecidableEq, Repr

/-- Run one setter call (each case is the corresponding source setter). -/
def StateModifier.Call.apply (m : StateModifier) : StateModifier.Call → StateModifier
  | .«on» v => m.set_on v
  | .brightness t v => m.set_brightness t v
  | .hue t v => m.set_hue t v
  | .saturation t v => m.set_saturation t v
  | .color_space_coordinates t v => m.set_color_space_coordinates t v
  | .color_temperature t v => m.set_color_temperature t v
  | .alert v => m.set_alert v
  | .effect v => m.set_effect v
  | .transition_time v => m.set_transition_time v

/-- The slot a setter call targets: Override targets the base slot, the
delta variants target the companion increment slot. -/
def StateModifier.Call.target : StateModifier.Call → StateModifier.Slot
  | .«on» _ => .«on»
  | .brightness t _ => match t with | .Override => .bri | _ => .bri_inc
  | .hue t _ => match t with | .Override => .hue | _ => .hue_inc
  | .saturation t _ => match t with | .Override => .sat | _ => .sat_inc
  | .color_space_coordinates t _ => match t with | .Override => .xy | _ => .xy_inc
  | .color_temperature t _ => match t with | .Override => .ct | _ => .ct_inc
  | .alert _ => .alert
  | .effect _ => .effect
  | .transition_time _ => .transitiontime

/-- The value a setter call writes into its target slot. -/
def StateModifier.Call.slotValue : (c : StateModifier.Call) → c.target.ty
  | .«on» v => v
  | .brightness .Override v => v
  | .brightness .Increment v => (v.val : Int)
  | .brightness .Decrement v => -(v.val : Int)
  | .hue .Override v => v
  | .hue .Increment v => (v.val : Int)
  | .hue .Decrement v => -(v.val : Int)
  | .saturation .Override v => v
  | .saturation .Increment v => (v.val : Int)
  | .saturation .Decrement v => -(v.val : Int)
  | .color_space_coordinates .Override v => v
  | .color_space_coordinates .Increment v => v
  | .color_space_coordinates .Decrement v => (-v.1, -v.2)
  | .color_space_coordinates .IncrementDecrement v => (v.1, -v.2)
  | .color_space_coordinates .DecrementIncrement v => (-v.1, v.2)
  | .color_temperature .Override v => v
  | .color_temperature .Increment v => (v.val : Int)
  | .color_temperature .Decrement v => -(v.val : Int)
  | .alert v => v
  | .effect v => v
  | .transition_time v => v

/-- The one wire field a setter call populates, as the serializer emits
it. -/
def StateModifier.Call.wireField : StateModifier.Call → String × JValue
  | .«on» v => ("on", JValue.bool v)
  | .brightness .Override v => ("bri", JValue.int v.val)
  | .brightness .Increment v => ("bri_inc", JValue.int v.val)
  | .brightness .Decrement v => ("bri_inc", JValue.int (-(v.val : Int)))
  | .hue .Override v => ("hue", JValue.int v.val)
  | .hue .Increment v => ("hue_inc", JValue.int v.val)
  | .hue .Decrement v => ("hue_inc", JValue.int (-(v.val : Int)))
  | .saturation .Override v => ("sat", JValue.int v.val)
  | .saturation .Increment v => ("sat_inc", JValue.int v.val)
  | .saturation .Decrement v => ("sat_inc", JValue.int (-(v.val : Int)))
  | .color_space_coordinates .Override v => ("xy", JValue.pair v.1 v.2)
  | .color_space_coordinates .Increment v => ("xy_inc", JValue.pair v.1 v.2)
  | .color_space_coordinates .Decrement v => ("xy_inc", JValue.pair (-v.1) (-v.2))
  | .color_space_coordinates .IncrementDecrement v => ("xy_inc", JValue.pair v.1 (-v.2))
  | .color_space_coordinates .DecrementIncrement v => ("xy_inc", JValue.pair (-v.1) v.2)
  | .color_temperature .Override v => ("ct", JValue.int v.val)
  | .color_temperature .Increment v => ("ct_inc", JValue.int v.val)
  | .color_temperature .Decrement v => ("ct_inc", JValue.int (-(v.val : Int)))
  | .alert v => ("alert", JValue.str (Alert.token v))
  | .effect v => ("effect", JValue.str (Effect.token v))
  | .transition_time v => ("transitiontime", JValue.int v.val)

/-- Every setter call is one slot write. -/
theorem StateModifier.apply_eq_setSlot (m : StateModifier) (c : StateModifier.Call) :
    c.apply m = m.setSlot c.target (some c.slotValue) := by
  cases c with
  | brightness t v => cases t <;> rfl
  | hue t v => cases t <;> rfl
  | saturation t v => cases t <;> rfl
  | color_space_coordinates t v => cases t <;> rfl
  | color_temperature t v => cases t <;> rfl
  | _ => rfl

/-- Writes to distinct slots commute. -/
theorem StateModifier.setSlot_comm (m : StateModifier) (s1 s2 : StateModifier.Slot)
    (v1 : Option s1.ty) (v2 : Option s2.ty) (h : s1 ≠ s2) :
    (m.setSlot s1 v1).setSlot s2 v2 = (m.setSlot s2 v2).setSlot s1 v1 := by
  cases s1 <;> cases s2 <;> first
  | exact absurd rfl h
  | rfl

/-- A second write to the same slot overwrites the first. -/
theorem StateModifier.setSlot_setSlot (m : StateModifier) (s : StateModifier.Slot)
    (v1 v2 : Option s.ty) : (m.setSlot s v1).setSlot s v2 = m.setSlot s v2 := by
  cases s <;> rfl

/-- A second write to an equal slot overwrites the first. -/
theorem StateModifier.setSlot_setSlot_of_eq (m : StateModifier) (s1 s2 : StateModifier.Slot)
    (v1 : Option s1.ty) (v2 : Option s2.ty) (h : s1 = s2) :
    (m.setSlot s1 v1).setSlot s2 v2 = m.setSlot s2 v2 := by
  subst h
  exact m.setSlot_setSlot s1 v1 v2

/-- Clearing a slot absorbs a write to it. -/
theorem StateModifier.eraseSlot_setSlot (m : StateModifier) (s : StateModifier.Slot)
    (v : Option s.ty) : (m.setSlot s v).eraseSlot s = m.eraseSlot s := by
  cases s <;> rfl

end Huelib.Light

namespace Huelib.Sensor

/-- src/resource/sensor.rs `AttributeModifier`. -/
structure AttributeModifier where
  name : Option String
  deriving DecidableEq, Repr

/-- `Modifier::new` = Default::default(). -/
def AttributeModifier.new : AttributeModifier :=
  ⟨Option.none⟩

/-- `Modifier::is_empty`: structural equality with a fresh instance. -/
def AttributeModifier.is_empty (m : AttributeModifier) : Bool :=
  decide (m = AttributeModifier.new)

/-- src/resource/sensor.rs `AttributeModifier::name`. -/
def AttributeModifier.set_name (m : AttributeModifier) (value : String) : AttributeModifier :=
  { m with name := some value }

/-- Serialization of a sensor `AttributeModifier`. -/
def AttributeModifier.serialize (m : AttributeModifier) : List (String × JValue) :=
  optField "name" JValue.str m.name

/-- One setter call on a sensor `AttributeModifier`. -/
inductive AttributeModifier.Call where
  | name (value : String) : AttributeModifier.Call
  deriving DecidableEq, Repr

/-- Run one setter call. -/
def AttributeModifier.Call.apply (m : AttributeModifier) :
    AttributeModifier.Call → AttributeModifier
  | .name v => m.set_name v

/-- The one wire field a setter call populates. -/
def AttributeModifier.Call.wireField : AttributeModifier.Call → String × JValue
  | .name v => ("name", JValue.str v)

/-- Clearing the only slot of a sensor `AttributeModifier`. -/
def AttributeModifier.erase (m : AttributeModifier) : AttributeModifier :=
  { m with name := Option.none }

/-- src/resource/sensor.rs `StateModifier`. -/
structure StateModifier where
  presence : Option Bool
  deriving DecidableEq, Repr

/-- `Modifier::new` = Default::default(). -/
def StateModifier.new : StateModifier :=
  ⟨Option.none⟩

/-- `Modifier::is_empty`: structural equality with a fresh instance. -/
def StateModifier.is_empty (m : StateModifier) : Bool :=
  decide (m = StateModifier.new)

/-- src/resource/sensor.rs `StateModifier::presence`. -/
def StateModifier.set_presence (m : StateModifier) (value : Bool) : StateModifier :=
  { m with presence := some value }

/-- Serialization of a sensor `StateModifier`. -/
def StateModifier.serialize (m : StateModifier) : List (String × JValue) :=
  optField "presence" JValue.bool m.presence

/-- One setter call on a sensor `StateModifier`. -/
inductive StateModifier.Call where
  | presence (value : Bool) : StateModifier.Call
  deriving DecidableEq, Repr

/-- Run one setter call. -/
def StateModifier.Call.apply (m : StateModifier) : StateModifier.Call → StateModifier
  | .presence v => m.set_presence v

/-- The one wire field a setter call populates. -/
def StateModifier.Call.wireField : StateModifier.Call → String × JValue
  | .presence v => ("presence", JValue.bool v)

/-- Clearing the only slot of a sensor `StateModifier`. -/
def StateModifier.erase (m : StateModifier) : StateModifier :=
  { m with presence := Option.none }

/-- src/resource/sensor.rs `ConfigModifier`. -/
structure ConfigModifier where
  «on» : Option Bool
  deriving DecidableEq, Repr

/-- `Modifier::new` = Default::default(). -/
def ConfigModifier.new : ConfigModifier :=
  ⟨Option.none⟩

/-- `Modifier::is_empty`: structural equality with a fresh instance. -/
def ConfigModifier.is_empty (m : ConfigModifier) : Bool :=
  decide (m = ConfigModifier.new)

/-- src/resource/sensor.rs `ConfigModifier::on`. -/
def ConfigModifier.set_on (m : ConfigModifier) (value : Bool) : ConfigModifier :=
  { m with «on» := some value }

/-- Serialization of a sensor `ConfigModifier`. -/
def ConfigModifier.serialize (m : ConfigModifier) : List (String × JValue) :=
  optField "on" JValue.bool m.«on»

/-- One setter call on a sensor `ConfigModifier`. -/
inductive ConfigModifier.Call where
  | «on» (value : Bool) : ConfigModifier.Call
  deriving DecidableEq, Repr

/-- Run one setter call. -/
def ConfigModifier.Call.apply (m : ConfigModifier) : ConfigModifier.Call → ConfigModifier
  | .«on» v => m.set_on v

/-- The one wire field a setter call populates. -/
def ConfigModifier.Call.wireField : ConfigModifier.Call → String × JValue
  | .«on» v => ("on", JValue.bool v)

/-- Clearing the only slot of a sensor `ConfigModifier`. -/
def ConfigModifier.erase (m : ConfigModifier) : ConfigModifier :=
  { m with «on» := Option.none }

end Huelib.Sensor

namespace Huelib

/-- An IP address, by its textual form: the source only ever converts an
`IpAddr` to its string rendering (for `proxy_address`) or serializes it
as that string, so the textual form is all this layer observes. -/
structure IpAddr where
  text : String
  deriving DecidableEq, Repr

/-- Rust's `IpAddr::to_string`. -/
def IpAddr.to_string (ip : IpAddr) : String :=
  ip.text

end Huelib

namespace Huelib.Config

/-- src/resource/config.rs `Modifier`: the bridge-configuration
modifier, one optional slot per wire field, in declaration order. -/
structure Modifier where
  name : Option String
  ip_address : Option IpAddr
  netmask : Option String
  gateway : Option IpAddr
  dhcp : Option Bool
  proxy_port : Option (Fin 65536)
  proxy_address : Option String
  linkbutton : Option Bool
  touchlink : Option Bool
  zigbee_channel : Option (Fin 256)
  current_time : Option String
  timezone : Option String
  deriving DecidableEq, Repr

/-- `Modifier::new` = Default::default(): no slot set. -/
def Modifier.new : Modifier :=
  ⟨Option.none, Option.none, Option.none, Option.none, Option.none, Option.none,
   Option.none, Option.none, Option.none, Option.none, Option.none, Option.none⟩

/-- `Modifier::is_empty`: structural equality with a fresh instance. -/
def Modifier.is_empty (m : Modifier) : Bool :=
  decide (m = Modifier.new)

/-- src/resource/config.rs `Modifier::name`. -/
def Modifier.set_name (m : Modifier) (value : String) : Modifier :=
  { m with name := some value }

/-- src/resource/config.rs `Modifier::ip_address`. -/
def Modifier.set_ip_address (m : Modifier) (value : IpAddr) : Modifier :=
  { m with ip_address := some value }

/-- src/resource/config.rs `Modifier::netmask`. -/
def Modifier.set_netmask (m : Modifier) (value : String) : Modifier :=
  { m with netmask := some value }

/-- src/resource/config.rs `Modifier::gateway`. -/
def Modifier.set_gateway (m : Modifier) (value : IpAddr) : Modifier :=
  { m with gateway := some value }

/-- src/resource/config.rs `Modifier::dhcp`. -/
def Modifier.set_dhcp (m : Modifier) (value : Bool) : Modifier :=
  { m with dhcp := some value }

/-- src/resource/config.rs `Modifier::proxy_port`. -/
def Modifier.set_proxy_port (m : Modifier) (value : Fin 65536) : Modifier :=
  { m with proxy_port := some value }

/-- src/resource/config.rs `Modifier::proxy_address`: `Some(ip)` stores
the textual form of the address, `None` stores the sentinel string
"none"; either way the slot becomes set. -/
def Modifier.set_proxy_address (m : Modifier) (value : Option IpAddr) : Modifier :=
  { m with proxy_address := some (match value with
      | some v => v.to_string
      | Option.none => "none") }

/-- src/resource/config.rs `Modifier::linkbutton`. -/
def Modifier.set_linkbutton (m : Modifier) (value : Bool) : Modifier :=
  { m with linkbutton := some value }

/-- src/resource/config.rs `Modifier::touchlink`: takes no argument and
stores true. -/
def Modifier.set_touchlink (m : Modifier) : Modifier :=
  { m with touchlink := some true }

/-- src/resource/config.rs `Modifier::zigbee_channel`. -/
def Modifier.set_zigbee_channel (m : Modifier) (value : Fin 256) : Modifier :=
  { m with zigbee_channel := some value }

/-- src/resource/config.rs `Modifier::current_time`. -/
def Modifier.set_current_time (m : Modifier) (value : String) : Modifier :=
  { m with current_time := some value }

/-- src/resource/config.rs `Modifier::timezone`. -/
def Modifier.set_timezone (m : Modifier) (value : String) : Modifier :=
  { m with timezone := some value }

/-- Serialization of a bridge-configuration `Modifier`: the set slots,
in field order, under their serde rename keys (an `IpAddr` serializes as
its textual form). -/
def Modifier.serialize (m : Modifier) : List (String × JValue) :=
  optField "name" JValue.str m.name
    ++ optField "ipaddress" (fun ip => JValue.str ip.text) m.ip_address
    ++ optField "netmask" JValue.str m.netmask
    ++ optField "gateway" (fun ip => JValue.str ip.text) m.gateway
    ++ optField "dhcp" JValue.bool m.dhcp
    ++ optField "proxyport" (fun v => JValue.int v.val) m.proxy_port
    ++ optField "proxyaddress" JValue.str m.proxy_address
    ++ optField "linkbutton" JValue.bool m.linkbutton
    ++ optField "touchlink" JValue.bool m.touchlink
    ++ optField "zigbeechannel" (fun v => JValue.int v.val) m.zigbee_channel
    ++ optField "UTC" JValue.str m.current_time
    ++ optField "timezone" JValue.str m.timezone

end Huelib.Config

namespace Huelib.Config

/-- The twelve wire slots of a bridge-configuration `Modifier`. -/
inductive Modifier.Slot where
  | name : Modifier.Slot
  | ipaddress : Modifier.Slot
  | netmask : Modifier.Slot
  | gateway : Modifier.Slot
  | dhcp : Modifier.Slot
  | proxyport : Modifier.Slot
  | proxyaddress : Modifier.Slot
  | linkbutton : Modifier.Slot
  | touchlink : Modifier.Slot
  | zigbeechannel : Modifier.Slot
  | utc : Modifier.Slot
  | timezone : Modifier.Slot
  deriving DecidableEq, Repr

/-- The value type stored in a slot. -/
def Modifier.Slot.ty : Modifier.Slot → Type
  | .name => String
  | .ipaddress => IpAddr
  | .netmask => String
  | .gateway => IpAddr
  | .dhcp => Bool
  | .proxyport => Fin 65536
  | .proxyaddress => String
  | .linkbutton => Bool
  | .touchlink => Bool
  | .zigbeechannel => Fin 256
  | .utc => String
  | .timezone => String

/-- Writing one slot of a `Modifier` (or clearing it, with none). -/
def Modifier.setSlot (m : Modifier) : (s : Modifier.Slot) → Option s.ty → Modifier
  | .name, v => { m with name := v }
  | .ipaddress, v => { m with ip_address := v }
  | .netmask, v => { m with netmask := v }
  | .gateway, v => { m with gateway := v }
  | .dhcp, v => { m with dhcp := v }
  | .proxyport, v => { m with proxy_port := v }
  | .proxyaddress, v => { m with proxy_address := v }
  | .linkbutton, v => { m with linkbutton := v }
  | .touchlink, v => { m with touchlink := v }
  | .zigbeechannel, v => { m with zigbee_channel := v }
  | .utc, v => { m with current_time := v }
  | .timezone, v => { m with timezone := v }

/-- Clearing one slot of a `Modifier`. -/
def Modifier.eraseSlot (m : Modifier) (s : Modifier.Slot) : Modifier :=
  m.setSlot s Option.none

/-- One setter call on a bridge-configuration `Modifier`. -/
inductive Modifier.Call where
  | name (value : String) : Modifier.Call
  | ip_address (value : IpAddr) : Modifier.Call
  | netmask (value : String) : Modifier.Call
  | gateway (value : IpAddr) : Modifier.Call
  | dhcp (value : Bool) : Modifier.Call
  | proxy_port (value : Fin 65536) : Modifier.Call
  | proxy_address (value : Option IpAddr) : Modifier.Call
  | linkbutton (value : Bool) : Modifier.Call
  | touchlink : Modifier.Call
  | zigbee_channel (value : Fin 256) : Modifier.Call
  | current_time (value : String) : Modifier.Call
  | timezone (value : String) : Modifier.Call
  deriving DecidableEq, Repr

/-- Run one setter call (each case is the corresponding source setter). -/
def Modifier.Call.apply (m : Modifier) : Modifier.Call → Modifier
  | .name v => m.set_name v
  | .ip_address v => m.set_ip_address v
  | .netmask v => m.set_netmask v
  | .gateway v => m.set_gateway v
  | .dhcp v => m.set_dhcp v
  | .proxy_port v => m.set_proxy_port v
  | .proxy_address v => m.set_proxy_address v
  | .linkbutton v => m.set_linkbutton v
  | .touchlink => m.set_touchlink
  | .zigbee_channel v => m.set_zigbee_channel v
  | .current_time v => m.set_current_time v
  | .timezone v => m.set_timezone v

/-- The slot a setter call targets. -/
def Modifier.Call.target : Modifier.Call → Modifier.Slot
  | .name _ => .name
  | .ip_address _ => .ipaddress
  | .netmask _ => .netmask
  | .gateway _ => .gateway
  | .dhcp _ => .dhcp
  | .proxy_port _ => .proxyport
  | .proxy_address _ => .proxyaddress
  | .linkbutton _ => .linkbutton
  | .touchlink => .touchlink
  | .zigbee_channel _ => .zigbeechannel
  | .current_time _ => .utc
  | .timezone _ => .timezone

/-- The value a setter call writes into its target slot. -/
def Modifier.Call.slotValue : (c : Modifier.Call) → c.target.ty
  | .name v => v
  | .ip_address v => v
  | .netmask v => v
  | .gateway v => v
  | .dhcp v => v
  | .proxy_port v => v
  | .proxy_address v =>
    match v with
    | some ip => ip.to_string
    | Option.none => "none"
  | .linkbutton v => v
  | .touchlink => true
  | .zigbee_channel v => v
  | .current_time v => v
  | .timezone v => v

/-- The one wire field a setter call populates, as the serializer emits
it. -/
def Modifier.Call.wireField : Modifier.Call → String × JValue
  | .name v => ("name", JValue.str v)
  | .ip_address v => ("ipaddress", JValue.str v.text)
  | .netmask v => ("netmask", JValue.str v)
  | .gateway v => ("gateway", JValue.str v.text)
  | .dhcp v => ("dhcp", JValue.bool v)
  | .proxy_port v => ("proxyport", JValue.int v.val)
  | .proxy_address v => ("proxyaddress", JValue.str (match v with
      | some ip => ip.to_string
      | Option.none => "none"))
  | .linkbutton v => ("linkbutton", JValue.bool v)
  | .touchlink => ("touchlink", JValue.bool true)
  | .zigbee_channel v => ("zigbeechannel", JValue.int v.val)
  | .current_time v => ("UTC", JValue.str v)
  | .timezone v => ("timezone", JValue.str v)

/-- Whether a call is a `proxy_address` setter call. -/
def Modifier.Call.isProxyAddress : Modifier.Call → Bool
  | .proxy_address _ => true
  | _ => false

/-- Running a sequence of setter calls, oldest first. -/
def Modifier.Call.applyList (m : Modifier) (calls : List Modifier.Call) : Modifier :=
  calls.foldl Modifier.Call.apply m

/-- Every setter call is one slot write. -/
theorem Modifier.apply_eq_setSlot_cm (m : Modifier) (c : Modifier.Call) :
    c.apply m = m.setSlot c.target (some c.slotValue) := by
  cases c <;> rfl

/-- Writes to distinct slots commute. -/
theorem Modifier.setSlot_comm_cm (m : Modifier) (s1 s2 : Modifier.Slot)
    (v1 : Option s1.ty) (v2 : Option s2.ty) (h : s1 ≠ s2) :
    (m.setSlot s1 v1).setSlot s2 v2 = (m.setSlot s2 v2).setSlot s1 v1 := by
  cases s1 <;> cases s2 <;> first
  | exact absurd rfl h
  | rfl

/-- A second write to the same slot overwrites the first. -/
theorem Modifier.setSlot_setSlot_cm (m : Modifier) (s : Modifier.Slot)
    (v1 v2 : Option s.ty) : (m.setSlot s v1).setSlot s v2 = m.setSlot s v2 := by
  cases s <;> rfl

/-- A second write to an equal slot overwrites the first. -/
theorem Modifier.setSlot_setSlot_of_eq_cm (m : Modifier) (s1 s2 : Modifier.Slot)
    (v1 : Option s1.ty) (v2 : Option s2.ty) (h : s1 = s2) :
    (m.setSlot s1 v1).setSlot s2 v2 = m.setSlot s2 v2 := by
  subst h
  exact Modifier.setSlot_setSlot_cm m s1 v1 v2

/-- Clearing a slot absorbs a write to it. -/
theorem Modifier.eraseSlot_setSlot_cm (m : Modifier) (s : Modifier.Slot)
    (v : Option s.ty) : (m.setSlot s v).eraseSlot s = m.eraseSlot s := by
  cases s <;> rfl

end Huelib.Config

namespace Huelib

/-- C3: for every light `StateModifier` and every u8 value,
`brightness(Increment, v)` stores exactly +v in the `bri_inc` delta slot
and `brightness(Decrement, v)` stores exactly -v; both values lie inside
the i16 range (no wrap-around, the delta slot being 16-bit signed while
the base slot is 8-bit unsigned); neither call changes the base `bri`
slot, and on a fresh modifier each call serializes to exactly the one
`bri_inc` field. -/
theorem brightness_delta_sign_exact :
    ∀ (m : Light.StateModifier) (v : Fin 256),
      ((m.set_brightness ModifierType.Increment v).brightness_increment
        = some (v.val : Int))
      ∧ ((m.set_brightness ModifierType.Decrement v).brightness_increment
        = some (-(v.val : Int)))
      ∧ ((m.set_brightness ModifierType.Increment v).brightness = m.brightness)
      ∧ ((m.set_brightness ModifierType.Decrement v).brightness = m.brightness)
      ∧ (-(2 ^ 15 : Int) ≤ -(v.val : Int) ∧ (v.val : Int) < 2 ^ 15)
      ∧ ((Light.StateModifier.new.set_brightness ModifierType.Increment v).serialize
        = [("bri_inc", JValue.int v.val)])
      ∧ ((Light.StateModifier.new.set_brightness ModifierType.Decrement v).serialize
        = [("bri_inc", JValue.int (-(v.val : Int)))]) := by
  intro m v
  refine ⟨rfl, rfl, rfl, rfl, ⟨?_, ?_⟩, rfl, rfl⟩
  · have h := v.isLt
    omega
  · have h := v.isLt
    omega

/-- C7: for every light `StateModifier` and coordinate pair (x, y),
`color_space_coordinates(IncrementDecrement, (x, y))` populates only the
`xy_inc` delta slot, with (x, -y), and `DecrementIncrement` populates it
with (-x, y); the base `xy` slot is unchanged by both; on a fresh
modifier the (0.1, 0.2) instance serializes to exactly
xy_inc: (0.1, -0.2). -/
theorem coordinate_cross_sign :
    ∀ (m : Light.StateModifier) (x y : Rat),
      ((m.set_color_space_coordinates CoordinateModifierType.IncrementDecrement
          (x, y)).color_space_coordinates_increment = some (x, -y))
      ∧ ((m.set_color_space_coordinates CoordinateModifierType.DecrementIncrement
          (x, y)).color_space_coordinates_increment = some (-x, y))
      ∧ ((m.set_color_space_coordinates CoordinateModifierType.IncrementDecrement
          (x, y)).color_space_coordinates = m.color_space_coordinates)
      ∧ ((m.set_color_space_coordinates CoordinateModifierType.DecrementIncrement
          (x, y)).color_space_coordinates = m.color_space_coordinates)
      ∧ ((Light.StateModifier.new.set_color_space_coordinates
            CoordinateModifierType.IncrementDecrement (1/10, 2/10)).serialize
        = [("xy_inc", JValue.pair (1/10) (-(2/10)))]) := by
  intro m x y
  exact ⟨rfl, rfl, rfl, rfl, rfl⟩

set_option maxHeartbeats 4000000 in
/-- C4: for each of the six modifier types (light attribute, light
state, sensor attribute, sensor state, sensor config, bridge config): a
fresh modifier serializes to the empty object; one setter call on a
fresh modifier serializes to exactly the one field that setter targets;
and is_empty is true exactly on values structurally equal to a fresh
instance. -/
theorem modifier_empty_and_single_field :
    (Light.AttributeModifier.new.serialize = [])
    ∧ (∀ c : Light.AttributeModifier.Call,
        (c.apply Light.AttributeModifier.new).serialize = [c.wireField])
    ∧ (∀ m : Light.AttributeModifier,
        m.is_empty = true ↔ m = Light.AttributeModifier.new)
    ∧ (Light.StateModifier.new.serialize = [])
    ∧ (∀ c : Light.StateModifier.Call,
        (c.apply Light.StateModifier.new).serialize = [c.wireField])
    ∧ (∀ m : Light.StateModifier, m.is_empty = true ↔ m = Light.StateModifier.new)
    ∧ (Sensor.AttributeModifier.new.serialize = [])
    ∧ (∀ c : Sensor.AttributeModifier.Call,
        (c.apply Sensor.AttributeModifier.new).serialize = [c.wireField])
    ∧ (∀ m : Sensor.AttributeModifier,
        m.is_empty = true ↔ m = Sensor.AttributeModifier.new)
    ∧ (Sensor.StateModifier.new.serialize = [])
    ∧ (∀ c : Sensor.StateModifier.Call,
        (c.apply Sensor.StateModifier.new).serialize = [c.wireField])
    ∧ (∀ m : Sensor.StateModifier, m.is_empty = true ↔ m = Sensor.StateModifier.new)
    ∧ (Sensor.ConfigModifier.new.serialize = [])
    ∧ (∀ c : Sensor.ConfigModifier.Call,
        (c.apply Sensor.ConfigModifier.new).serialize = [c.wireField])
    ∧ (∀ m : Sensor.ConfigModifier, m.is_empty = true ↔ m = Sensor.ConfigModifier.new)
    ∧ (Config.Modifier.new.serialize = [])
    ∧ (∀ c : Config.Modifier.Call,
        (c.apply Config.Modifier.new).serialize = [c.wireField])
    ∧ (∀ m : Config.Modifier, m.is_empty = true ↔ m = Config.Modifier.new) := by
  refine ⟨rfl, ?_, ?_, rfl, ?_, ?_, rfl, ?_, ?_, rfl, ?_, ?_, rfl, ?_, ?_, rfl, ?_, ?_⟩
  · intro c
    cases c
    rfl
  · intro m
    simp only [Light.AttributeModifier.is_empty, decide_eq_true_eq]
  · intro c
    cases c with
    | brightness t v => cases t <;> rfl
    | hue t v => cases t <;> rfl
    | saturation t v => cases t <;> rfl
    | color_space_coordinates t v => cases t <;> rfl
    | color_temperature t v => cases t <;> rfl
    | _ => rfl
  · intro m
    simp only [Light.StateModifier.is_empty, decide_eq_true_eq]
  · intro c
    cases c
    rfl
  · intro m
    simp only [Sensor.AttributeModifier.is_empty, decide_eq_true_eq]
  · intro c
    cases c
    rfl
  · intro m
    simp only [Sensor.StateModifier.is_empty, decide_eq_true_eq]
  · intro c
    cases c
    rfl
  · intro m
    simp only [Sensor.ConfigModifier.is_empty, decide_eq_true_eq]
  · intro c
    cases c <;> rfl
  · intro m
    simp only [Config.Modifier.is_empty, decide_eq_true_eq]

/-- C8: every setter call changes only its target slot (frame), setter
calls with distinct target slots commute, and of two calls with the same
target slot the later one wins — stated for the light state modifier and
the bridge-configuration modifier (the two cited impls), and for the
three single-slot sensor modifiers and the single-slot light attribute
modifier, whose every call targets their one slot. -/
theorem modifier_setter_frame_commute :
    (∀ (m : Light.StateModifier) (c : Light.StateModifier.Call),
        (c.apply m).eraseSlot c.target = m.eraseSlot c.target)
    ∧ (∀ (m : Light.StateModifier) (c1 c2 : Light.StateModifier.Call),
        c1.target ≠ c2.target → c2.apply (c1.apply m) = c1.apply (c2.apply m))
    ∧ (∀ (m : Light.StateModifier) (c1 c2 : Light.StateModifier.Call),
        c1.target = c2.target → c2.apply (c1.apply m) = c2.apply m)
    ∧ (∀ (m : Config.Modifier) (c : Config.Modifier.Call),
        (c.apply m).eraseSlot c.target = m.eraseSlot c.target)
    ∧ (∀ (m : Config.Modifier) (c1 c2 : Config.Modifier.Call),
        c1.target ≠ c2.target → c2.apply (c1.apply m) = c1.apply (c2.apply m))
    ∧ (∀ (m : Config.Modifier) (c1 c2 : Config.Modifier.Call),
        c1.target = c2.target → c2.apply (c1.apply m) = c2.apply m)
    ∧ (∀ (m : Light.AttributeModifier) (c : Light.AttributeModifier.Call),
        (c.apply m).erase = m.erase)
    ∧ (∀ (m : Light.AttributeModifier) (c1 c2 : Light.AttributeModifier.Call),
        c2.apply (c1.apply m) = c2.apply m)
    ∧ (∀ (m : Sensor.AttributeModifier) (c : Sensor.AttributeModifier.Call),
        (c.apply m).erase = m.erase)
    ∧ (∀ (m : Sensor.AttributeModifier) (c1 c2 : Sensor.AttributeModifier.Call),
        c2.apply (c1.apply m) = c2.apply m)
    ∧ (∀ (m : Sensor.StateModifier) (c : Sensor.StateModifier.Call),
        (c.apply m).erase = m.erase)
    ∧ (∀ (m : Sensor.StateModifier) (c1 c2 : Sensor.StateModifier.Call),
        c2.apply (c1.apply m) = c2.apply m)
    ∧ (∀ (m : Sensor.ConfigModifier) (c : Sensor.ConfigModifier.Call),
        (c.apply m).erase = m.erase)
    ∧ (∀ (m : Sensor.ConfigModifier) (c1 c2 : Sensor.ConfigModifier.Call),
        c2.apply (c1.apply m) = c2.apply m) := by
  refine ⟨?_, ?_, ?_, ?_, ?_, ?_, ?_, ?_, ?_, ?_, ?_, ?_, ?_, ?_⟩
  · intro m c
    rw [Light.StateModifier.apply_eq_setSlot]
    exact Light.StateModifier.eraseSlot_setSlot m c.target _
  · intro m c1 c2 h
    simp only [Light.StateModifier.apply_eq_setSlot]
    exact Light.StateModifier.setSlot_comm m c1.target c2.target _ _ h
  · intro m c1 c2 h
    simp only [Light.StateModifier.apply_eq_setSlot]
    exact Light.StateModifier.setSlot_setSlot_of_eq m c1.target c2.target _ _ h
  · intro m c
    rw [Config.Modifier.apply_eq_setSlot_cm]
    exact Config.Modifier.eraseSlot_setSlot_cm m c.target _
  · intro m c1 c2 h
    simp only [Config.Modifier.apply_eq_setSlot_cm]
    exact Config.Modifier.setSlot_comm_cm m c1.target c2.target _ _ h
  · intro m c1 c2 h
    simp only [Config.Modifier.apply_eq_setSlot_cm]
    exact Config.Modifier.setSlot_setSlot_of_eq_cm m c1.target c2.target _ _ h
  · intro m c
    cases c
    rfl
  · intro m c1 c2
    cases c1
    cases c2
    rfl
  · intro m c
    cases c
    rfl
  · intro m c1 c2
    cases c1
    cases c2
    rfl
  · intro m c
    cases c
    rfl
  · intro m c1 c2
    cases c1
    cases c2
    rfl
  · intro m c
    cases c
    rfl
  · intro m c1 c2
    cases c1
    cases c2
    rfl

/-- Witness for the frame/commutation theorem at concrete calls: on a
fresh light state modifier, brightness Override and brightness Increment
target distinct slots and commute. -/
theorem modifier_setter_frame_commute_witness :
    Light.StateModifier.Call.apply
        (Light.StateModifier.Call.apply Light.StateModifier.new
          (Light.StateModifier.Call.brightness ModifierType.Override ⟨10, by decide⟩))
        (Light.StateModifier.Call.brightness ModifierType.Increment ⟨3, by decide⟩)
      = Light.StateModifier.Call.apply
          (Light.StateModifier.Call.apply Light.StateModifier.new
            (Light.StateModifier.Call.brightness ModifierType.Increment ⟨3, by decide⟩))
          (Light.StateModifier.Call.brightness ModifierType.Override ⟨10, by decide⟩) :=
  modifier_setter_frame_commute.2.1 Light.StateModifier.new
    (Light.StateModifier.Call.brightness ModifierType.Override ⟨10, by decide⟩)
    (Light.StateModifier.Call.brightness ModifierType.Increment ⟨3, by decide⟩)
    (by decide)

end Huelib

namespace Huelib

/-- A key appears among the serialized pairs of one optional field
exactly when it is that field's key and the slot is set. -/
theorem mem_keys_optField {α : Type} (a k : String) (f : α → JValue) (o : Option α) :
    (a ∈ (optField k f o).map Prod.fst) ↔ (a = k ∧ o.isSome = true) := by
  cases o <;> simp [optField]

end Huelib

namespace Huelib.Config

/-- One setter call leaves the proxyaddress slot set exactly when it was
already set or the call is a proxy_address call (which always stores
some value). -/
theorem Modifier.apply_proxy_isSome (m : Modifier) (c : Modifier.Call) :
    ((c.apply m).proxy_address.isSome = true)
      ↔ (m.proxy_address.isSome = true ∨ c.isProxyAddress = true) := by
  cases c <;>
    simp [Modifier.Call.apply, Modifier.Call.isProxyAddress, Modifier.set_name,
      Modifier.set_ip_address, Modifier.set_netmask, Modifier.set_gateway,
      Modifier.set_dhcp, Modifier.set_proxy_port, Modifier.set_proxy_address,
      Modifier.set_linkbutton, Modifier.set_touchlink, Modifier.set_zigbee_channel,
      Modifier.set_current_time, Modifier.set_timezone]

/-- After a sequence of setter calls, the proxyaddress slot is set
exactly when it started set or some call in the sequence was a
proxy_address call. -/
theorem Modifier.applyList_proxy_isSome (calls : List Modifier.Call) :
    ∀ m : Modifier,
      ((Modifier.Call.applyList m calls).proxy_address.isSome = true)
        ↔ (m.proxy_address.isSome = true ∨ ∃ c ∈ calls, c.isProxyAddress = true) := by
  induction calls with
  | nil =>
    intro m
    simp [Modifier.Call.applyList]
  | cons c cs ih =>
    intro m
    have h1 : Modifier.Call.applyList m (c :: cs) = Modifier.Call.applyList (c.apply m) cs := rfl
    rw [h1, ih, Modifier.apply_proxy_isSome]
    simp only [List.mem_cons, exists_eq_or_imp, or_assoc]

/-- The serialized payload of a bridge-configuration modifier carries
the "proxyaddress" key exactly when the proxyaddress slot is set. -/
theorem Modifier.serialize_has_proxyaddress (m : Modifier) :
    ("proxyaddress" ∈ m.serialize.map Prod.fst) ↔ m.proxy_address.isSome = true := by
  simp only [Modifier.serialize, List.map_append, List.mem_append, mem_keys_optField]
  simp

end Huelib.Config

namespace Huelib

/-- C10: `proxy_address(None)` stores the sentinel string "none" in the
proxyaddress slot (so serialization emits the field with value "none"
rather than omitting it), `proxy_address(Some(ip))` stores the textual
form of the address, and — over every sequence of setter calls on a
fresh modifier — the serialized payload omits the proxyaddress field
exactly when no proxy_address call was ever made. -/
theorem proxy_address_none_sentinel :
    (∀ m : Config.Modifier,
        (m.set_proxy_address Option.none).proxy_address = some "none")
    ∧ (∀ (m : Config.Modifier) (ip : IpAddr),
        (m.set_proxy_address (some ip)).proxy_address = some ip.to_string)
    ∧ ((Config.Modifier.new.set_proxy_address Option.none).serialize
        = [("proxyaddress", JValue.str "none")])
    ∧ (∀ calls : List Config.Modifier.Call,
        ("proxyaddress" ∈
            (Config.Modifier.Call.applyList Config.Modifier.new calls).serialize.map Prod.fst)
          ↔ ∃ c ∈ calls, c.isProxyAddress = true) := by
  refine ⟨fun m => rfl, fun m ip => rfl, rfl, ?_⟩
  intro calls
  rw [Config.Modifier.serialize_has_proxyaddress,
    Config.Modifier.applyList_proxy_isSome]
  simp [Config.Modifier.new]

end Huelib
